import Mathlib

/-!
Verification of the transfer layer of the `nusb` repository
(`src/transfer/mod.rs`), shallowly embedded in Lean.

Pure enums and functions from `mod.rs` are translated directly.  The
submodules `queue.rs`, `control.rs`, `buffer.rs` and `internal.rs` are not
part of the available sources; the definitions that depend on them are
modelled from the specification and are marked as such in their doc
comments.
-/

namespace Nusb

/-- `TransferError` from `src/transfer/mod.rs` lines 50-72: the five error
variants, with `Fault` carrying a raw numeric fault code (`u32` in the
source; a `Nat` here, no arithmetic is performed on it). -/
inductive TransferError where
  | Cancelled : TransferError
  | Stall : TransferError
  | Disconnected : TransferError
  | Fault : Nat → TransferError
  | Unknown : TransferError
  deriving DecidableEq

/-- The subset of `std::io::ErrorKind` values used by
`impl From<TransferError> for io::Error` in `src/transfer/mod.rs`. -/
inductive ErrorKind where
  | Interrupted : ErrorKind
  | ConnectionReset : ErrorKind
  | ConnectionAborted : ErrorKind
  | Other : ErrorKind
  deriving DecidableEq

/-- A `std::io::Error` as produced by `io::Error::new(kind, value)`: an
error kind together with the boxed cause, which here is always the
original `TransferError`. -/
structure IoError where
  kind : ErrorKind
  cause : TransferError
  deriving DecidableEq

/-- `impl From<TransferError> for io::Error` from `src/transfer/mod.rs`
lines 88-98: each variant is matched and wrapped with
`io::Error::new(kind, value)`. -/
def ioErrorFrom (value : TransferError) : IoError :=
  match value with
  | .Cancelled => ⟨.Interrupted, value⟩
  | .Stall => ⟨.ConnectionReset, value⟩
  | .Disconnected => ⟨.ConnectionAborted, value⟩
  | .Fault _ => ⟨.Other, value⟩
  | .Unknown => ⟨.Other, value⟩

/-- Decimal rendering of a natural number, as Rust's `Display` for `u32`
renders `{errno}`: most-significant digit first, no leading zeros, and
`"0"` for zero. -/
def natDecimalChars (n : Nat) : List Char :=
  if n = 0 then [Nat.digitChar 0] else ((Nat.digits 10 n).map Nat.digitChar).reverse

/-- `impl Display for TransferError` from `src/transfer/mod.rs` lines
74-84: each variant writes a fixed message; `Fault(errno)` interpolates
the fault code in decimal. -/
def TransferError.display : TransferError → String
  | .Cancelled => "transfer was cancelled"
  | .Stall => "endpoint STALL condition"
  | .Disconnected => "device disconnected"
  | .Fault errno =>
      "hardware fault or protocol violation (errno " ++ String.mk (natDecimalChars errno) ++ ")"
  | .Unknown => "unknown error"

/-- `Completion<T>` from `src/transfer/mod.rs` lines 100-114: returned
data (or buffer to re-use) together with the completion status. -/
structure Completion (T : Type) where
  data : T
  status : Except TransferError Unit

/-- `Completion::into_result` from `src/transfer/mod.rs` lines 116-123:
`self.status.map(|()| self.data)`. -/
def Completion.into_result {T : Type} (self : Completion T) : Except TransferError T :=
  self.status.map (fun _ => self.data)

/-- Modelled from the spec: `ResponseBuffer` lives in `buffer.rs`, which
is not under the available sources.  The spec describes it as owned byte
storage with a logical length distinct from allocated capacity; only its
identity matters for the `TryFrom` impls verified here. -/
structure ResponseBuffer where
  storage : List Nat
  len : Nat

/-- `impl TryFrom<Completion<Vec<u8>>> for Vec<u8>` from
`src/transfer/mod.rs` lines 125-131: `c.into_result()`.  A `Vec<u8>` is
embedded as a list of bytes. -/
def Vec.try_from (c : Completion (List Nat)) : Except TransferError (List Nat) :=
  c.into_result

/-- `impl TryFrom<Completion<ResponseBuffer>> for ResponseBuffer` from
`src/transfer/mod.rs` lines 133-139: `c.into_result()`. -/
def ResponseBuffer.try_from (c : Completion ResponseBuffer) : Except TransferError ResponseBuffer :=
  c.into_result

/-- `EndpointType` from `src/transfer/mod.rs` lines 33-47: the four USB
endpoint types. -/
inductive EndpointType where
  | Control : EndpointType
  | Isochronous : EndpointType
  | Bulk : EndpointType
  | Interrupt : EndpointType
  deriving DecidableEq

/-- The numeric discriminants assigned in the source
(`Control = 0, Isochronous = 1, Bulk = 2, Interrupt = 3`). -/
def EndpointType.tag : EndpointType → Nat
  | .Control => 0
  | .Isochronous => 1
  | .Bulk => 2
  | .Interrupt => 3

/-- `SETUP_PACKET_SIZE` re-exported from `control.rs` by
`src/transfer/mod.rs`; the spec fixes it to 8. -/
def SETUP_PACKET_SIZE : Nat := 8

/-- `Direction` of a control transfer (`control.rs`, re-exported by
`mod.rs`).  Modelled from the spec: Host-to-Device (`Out`, bit value 0)
or Device-to-Host (`In`, bit value 1). -/
inductive Direction where
  | Out : Direction
  | In : Direction
  deriving DecidableEq

/-- The direction bit of `bmRequestType`. -/
def Direction.bits : Direction → Nat
  | .Out => 0
  | .In => 1

/-- `ControlType` (`control.rs`, re-exported by `mod.rs`).  Modelled from
the spec: Standard, Class or Vendor request type. -/
inductive ControlType where
  | Standard : ControlType
  | Class : ControlType
  | Vendor : ControlType
  deriving DecidableEq

/-- The request-type bits of `bmRequestType` (USB values 0, 1, 2). -/
def ControlType.bits : ControlType → Nat
  | .Standard => 0
  | .Class => 1
  | .Vendor => 2

/-- `Recipient` (`control.rs`, re-exported by `mod.rs`).  Modelled from
the spec: Device, Interface, Endpoint or Other recipient. -/
inductive Recipient where
  | Device : Recipient
  | Interface : Recipient
  | Endpoint : Recipient
  | Other : Recipient
  deriving DecidableEq

/-- The recipient bits of `bmRequestType` (USB values 0-3). -/
def Recipient.bits : Recipient → Nat
  | .Device => 0
  | .Interface => 1
  | .Endpoint => 2
  | .Other => 3

/-- Modelled from the spec: the control setup descriptor
(`Control` in `control.rs`, not under the available sources) — direction,
request type, recipient, 8-bit request code and 16-bit value, index and
length fields. -/
structure Control where
  direction : Direction
  control_type : ControlType
  recipient : Recipient
  request : Nat
  value : Nat
  index : Nat
  length : Nat

/-- The `bmRequestType` byte: direction in bit 7, request type in bits
5-6, recipient in bits 0-4, per the USB specification wire layout the
spec requires. -/
def Control.request_type (c : Control) : Nat :=
  c.direction.bits * 128 + c.control_type.bits * 32 + c.recipient.bits

/-- Modelled from the spec: the setup-packet encoder of `control.rs`.
Produces the fixed 8-byte packet: `bmRequestType`, `bRequest`, then
`wValue`, `wIndex`, `wLength` in little-endian order. -/
def Control.setup_packet (c : Control) : List Nat :=
  [c.request_type, c.request,
   c.value % 256, c.value / 256,
   c.index % 256, c.index / 256,
   c.length % 256, c.length / 256]

/-- Decode of the direction bit of `bmRequestType`. -/
def decodeDirection : Nat → Option Direction
  | 0 => some .Out
  | 1 => some .In
  | _ => none

/-- Decode of the request-type bits of `bmRequestType`. -/
def decodeControlType : Nat → Option ControlType
  | 0 => some .Standard
  | 1 => some .Class
  | 2 => some .Vendor
  | _ => none

/-- Decode of the recipient bits of `bmRequestType`. -/
def decodeRecipient : Nat → Option Recipient
  | 0 => some .Device
  | 1 => some .Interface
  | 2 => some .Endpoint
  | 3 => some .Other
  | _ => none

/-- Modelled from the spec: the setup-packet decoder (the codec of §4.1
"encodes/decodes" the 8-byte packet).  Splits `bmRequestType` into its
bit fields and recombines the little-endian 16-bit words. -/
def decode_setup_packet : List Nat → Option Control :=
  fun b =>
    match b with
    | [b0, b1, b2, b3, b4, b5, b6, b7] =>
      (decodeDirection (b0 / 128 % 2)).bind fun d =>
        (decodeControlType (b0 / 32 % 4)).bind fun t =>
          (decodeRecipient (b0 % 32)).bind fun r =>
            some ⟨d, t, r, b1, b2 + 256 * b3, b4 + 256 * b5, b6 + 256 * b7⟩
    | _ => none

/-- Modelled from the spec: the Queue's ordered retrieval (`queue.rs` is
not under the available sources).  `ids` is the submission-ordered list
of outstanding transfer ids (head = oldest); `notified` is the reorder
buffer of ids whose completion notification has arrived, in arrival
order; `f` gives the completion the backend recorded for each id.
`drain` performs repeated `next_complete()` calls: each call returns the
completion of the head-of-queue id once its notification is buffered,
and fails (`none`, the caller would still be suspended) if the head's
notification has not arrived. -/
def Queue.drain {T : Type} (f : Nat → Completion T) :
    List Nat → List Nat → Option (List (Completion T))
  | [], _ => some []
  | i :: rest, notified =>
    if i ∈ notified then
      (Queue.drain f rest (notified.erase i)).map (fun l => f i :: l)
    else
      none

/-- Modelled from the spec: the state of a `TransferFuture` awaiting one
transfer (its cancel-on-drop glue lives in `internal.rs`, not under the
available sources).  Either the transfer is still in flight, holding the
buffer and a count of partially-transferred bytes, or its completion has
been observed. -/
inductive TransferFutureState (T : Type) where
  | inFlight : List Nat → Nat → TransferFutureState T
  | observed : Completion T → TransferFutureState T

/-- The externally visible effect of dropping a `TransferFuture`:
whether a cancel request was issued to the backend, and what data the
caller gets back (always nothing — drop returns no value). -/
structure DropEffect where
  cancelRequested : Bool
  recoveredData : Option (List Nat)

/-- Modelled from the spec: dropping the awaitable.  Per §4.4, dropping
before completion cancels the transfer and discards the buffer and any
partially-transferred data; in every case the caller recovers nothing. -/
def dropTransferFuture {T : Type} : TransferFutureState T → DropEffect
  | .inFlight _ _ => ⟨true, none⟩
  | .observed _ => ⟨false, none⟩

/-- A concrete control descriptor (GET_DESCRIPTOR for the device
descriptor) used by the witnesses. -/
def exControl : Control :=
  ⟨.In, .Standard, .Device, 6, 256, 0, 18⟩

section Theorems

/-- Claim C1: for every `Completion<T>` value `c`, `c.into_result()`
returns `Ok(c.data)` iff `c.status` is `Ok(())`, and otherwise returns
`Err(e)` where `e` is exactly the `TransferError` held in `c.status`. -/
theorem into_result_spec {T : Type} (c : Completion T) :
    (c.into_result = Except.ok c.data ↔ c.status = Except.ok ()) ∧
    (∀ e, c.into_result = Except.error e ↔ c.status = Except.error e) := by
  obtain ⟨d, s⟩ := c
  cases s with
  | ok u => cases u; simp [Completion.into_result, Except.map]
  | error e => simp [Completion.into_result, Except.map]

/-- Claim C2: the conversion from `TransferError` to the generic I/O
error is total on all five variants, maps `Cancelled` to `Interrupted`,
`Stall` to `ConnectionReset`, `Disconnected` to `ConnectionAborted`,
`Fault(code)` and `Unknown` to `Other`, and always carries the original
`TransferError` as the cause. -/
theorem io_error_mapping_total :
    (∀ e : TransferError, (ioErrorFrom e).cause = e) ∧
    (ioErrorFrom .Cancelled).kind = .Interrupted ∧
    (ioErrorFrom .Stall).kind = .ConnectionReset ∧
    (ioErrorFrom .Disconnected).kind = .ConnectionAborted ∧
    (∀ code, (ioErrorFrom (.Fault code)).kind = .Other) ∧
    (ioErrorFrom .Unknown).kind = .Other := by
  refine ⟨fun e => ?_, rfl, rfl, rfl, fun code => rfl, rfl⟩
  cases e <;> rfl

/-- Claim C3: for every submission sequence of transfers on one
endpoint's Queue and every order in which the backend delivers the
completion notifications (any permutation of the submitted ids),
successive `next_complete()` calls return the completions in exactly the
submission order. -/
theorem queue_fifo_order {T : Type} (f : Nat → Completion T) (ids order : List Nat)
    (h : order.Perm ids) : Queue.drain f ids order = some (ids.map f) := by
  induction ids generalizing order with
  | nil => simp [Queue.drain]
  | cons i rest ih =>
    have hi : i ∈ order := h.mem_iff.mpr (List.mem_cons_self i rest)
    have h2 : (order.erase i).Perm rest := by
      have h3 := h.erase i
      rwa [List.erase_cons_head] at h3
    rw [Queue.drain, if_pos hi, ih (order.erase i) h2]
    simp

/-- Witness for C3: three transfers submitted as 1, 2, 3, notified in
the order 3, 1, 2, are retrieved in order 1, 2, 3. -/
theorem queue_fifo_order_witness :
    List.Perm [3, 1, 2] [1, 2, 3] ∧
    Queue.drain (fun i => Completion.mk i (Except.ok ())) [1, 2, 3] [3, 1, 2] =
      some [⟨1, Except.ok ()⟩, ⟨2, Except.ok ()⟩, ⟨3, Except.ok ()⟩] := by
  refine ⟨by decide, ?_⟩
  have h := queue_fifo_order (fun i => Completion.mk i (Except.ok ())) [1, 2, 3] [3, 1, 2]
    (by decide)
  simpa using h

/-- Claim C4: dropping the `TransferFuture` awaitable while the transfer
is still in flight (its completion not yet observed) issues a cancel of
the underlying transfer, and the buffer and any partially-transferred
data are discarded: the caller recovers nothing. -/
theorem transfer_future_drop_discards {T : Type} (buffer : List Nat) (transferred : Nat) :
    (@dropTransferFuture T (.inFlight buffer transferred)).cancelRequested = true ∧
    (@dropTransferFuture T (.inFlight buffer transferred)).recoveredData = none :=
  ⟨rfl, rfl⟩

/-- Claim C5: for every control descriptor (any direction, request type,
recipient, 8-bit request code and 16-bit value/index/length), the encoder
produces exactly `SETUP_PACKET_SIZE = 8` bytes: byte 0 is
`bmRequestType` (direction bit 7, type bits 5-6, recipient bits 0-4),
byte 1 is `bRequest`, and bytes 2-3, 4-5, 6-7 hold `wValue`, `wIndex`,
`wLength` little-endian; every entry is a byte and encoding never
fails. -/
theorem setup_packet_layout (c : Control) (hreq : c.request < 256) (hv : c.value < 65536)
    (hi : c.index < 65536) (hl : c.length < 65536) :
    c.setup_packet.length = SETUP_PACKET_SIZE ∧
    (∀ b ∈ c.setup_packet, b < 256) ∧
    ∃ b2 b3 b4 b5 b6 b7,
      c.setup_packet =
        [c.direction.bits * 128 + c.control_type.bits * 32 + c.recipient.bits,
         c.request, b2, b3, b4, b5, b6, b7] ∧
      b2 + 256 * b3 = c.value ∧ b4 + 256 * b5 = c.index ∧ b6 + 256 * b7 = c.length := by
  have hd : c.direction.bits ≤ 1 := by cases c.direction <;> decide
  have ht : c.control_type.bits ≤ 2 := by cases c.control_type <;> decide
  have hr : c.recipient.bits ≤ 3 := by cases c.recipient <;> decide
  refine ⟨rfl, ?_, c.value % 256, c.value / 256, c.index % 256, c.index / 256,
    c.length % 256, c.length / 256, rfl, ?_, ?_, ?_⟩
  · intro b hb
    simp only [Control.setup_packet, Control.request_type, List.mem_cons,
      List.not_mem_nil, or_false] at hb
    rcases hb with h | h | h | h | h | h | h | h <;> omega
  · omega
  · omega
  · omega

/-- Witness for C5: the layout theorem applied to a concrete
GET_DESCRIPTOR setup. -/
theorem setup_packet_layout_witness :
    exControl.request < 256 ∧ exControl.value < 65536 ∧
    exControl.setup_packet.length = SETUP_PACKET_SIZE ∧
    (∀ b ∈ exControl.setup_packet, b < 256) := by
  have h := setup_packet_layout exControl (by decide) (by decide) (by decide) (by decide)
  exact ⟨by decide, by decide, h.1, h.2.1⟩

/-- Claim C6: encoding a control descriptor to the 8-byte setup packet
and then decoding those bytes yields a descriptor identical in
direction, request type, recipient, request code, value, index and
length. -/
theorem setup_packet_roundtrip (c : Control) (hreq : c.request < 256) (hv : c.value < 65536)
    (hi : c.index < 65536) (hl : c.length < 65536) :
    decode_setup_packet c.setup_packet = some c := by
  obtain ⟨d, t, r, req, v, i, l⟩ := c
  cases d <;> cases t <;> cases r <;>
    simp [Control.setup_packet, Control.request_type, decode_setup_packet,
      decodeDirection, decodeControlType, decodeRecipient,
      Direction.bits, ControlType.bits, Recipient.bits, Control.mk.injEq] <;>
    omega

/-- Witness for C6: the round-trip theorem applied to a concrete
GET_DESCRIPTOR setup. -/
theorem setup_packet_roundtrip_witness :
    exControl.request < 256 ∧
    decode_setup_packet exControl.setup_packet = some exControl :=
  ⟨by decide, setup_packet_roundtrip exControl (by decide) (by decide) (by decide) (by decide)⟩

/-- Claim C7: `EndpointType` has exactly the four variants `Control`,
`Isochronous`, `Bulk`, `Interrupt`, with numeric tags 0, 1, 2, 3. -/
theorem endpoint_type_tags :
    (∀ e : EndpointType,
      e = .Control ∨ e = .Isochronous ∨ e = .Bulk ∨ e = .Interrupt) ∧
    EndpointType.tag .Control = 0 ∧ EndpointType.tag .Isochronous = 1 ∧
    EndpointType.tag .Bulk = 2 ∧ EndpointType.tag .Interrupt = 3 := by
  refine ⟨fun e => ?_, rfl, rfl, rfl, rfl⟩
  cases e
  · exact Or.inl rfl
  · exact Or.inr (Or.inl rfl)
  · exact Or.inr (Or.inr (Or.inl rfl))
  · exact Or.inr (Or.inr (Or.inr rfl))

/-- Claim C8: `TransferError` is a closed taxonomy of exactly the five
variants `Cancelled`, `Stall`, `Disconnected`, `Fault(code)` and
`Unknown`, and the `Fault` payload preserves the numeric cause (distinct
codes give distinct values). -/
theorem transfer_error_closed :
    (∀ e : TransferError, e = .Cancelled ∨ e = .Stall ∨ e = .Disconnected ∨
      (∃ code, e = .Fault code) ∨ e = .Unknown) ∧
    (∀ c1 c2 : Nat, TransferError.Fault c1 = TransferError.Fault c2 → c1 = c2) := by
  constructor
  · intro e
    cases e with
    | Cancelled => exact Or.inl rfl
    | Stall => exact Or.inr (Or.inl rfl)
    | Disconnected => exact Or.inr (Or.inr (Or.inl rfl))
    | Fault code => exact Or.inr (Or.inr (Or.inr (Or.inl ⟨code, rfl⟩)))
    | Unknown => exact Or.inr (Or.inr (Or.inr (Or.inr rfl)))
  · intro c1 c2 h
    exact TransferError.Fault.inj h

/-- Witness for C8: the payload-preservation conjunct at a concrete
fault code. -/
theorem transfer_error_closed_witness : (7 : Nat) = 7 :=
  transfer_error_closed.2 7 7 rfl

/-- Claim C9: the `TryFrom` conversions on `Completion<Vec<u8>>` and
`Completion<ResponseBuffer>` return exactly the same result as
`into_result` on every input. -/
theorem try_from_eq_into_result :
    (∀ c : Completion (List Nat), Vec.try_from c = c.into_result) ∧
    (∀ c : Completion ResponseBuffer, ResponseBuffer.try_from c = c.into_result) :=
  ⟨fun _ => rfl, fun _ => rfl⟩

end Theorems

section DisplayLemmas

/-- Inverse of `Nat.digitChar` on decimal digits. -/
def charToDigit (c : Char) : Nat := c.toNat - 48

/-- Decimal parsing, a left inverse of `natDecimalChars`. -/
def decimalCharsToNat (l : List Char) : Nat :=
  Nat.ofDigits 10 ((l.map charToDigit).reverse)

theorem decimalCharsToNat_natDecimalChars (n : Nat) :
    decimalCharsToNat (natDecimalChars n) = n := by
  by_cases hn : n = 0
  · subst hn
    simp only [natDecimalChars, if_pos rfl]
    decide
  · have hdig : ∀ d, d < 10 → charToDigit (Nat.digitChar d) = d := by decide
    have hmap : (Nat.digits 10 n).map (fun d => charToDigit (Nat.digitChar d)) =
        Nat.digits 10 n := by
      rw [List.map_congr_left, List.map_id]
      intro d hd
      exact hdig d (Nat.digits_lt_base (by norm_num) hd)
    simp only [natDecimalChars, if_neg hn, decimalCharsToNat, List.map_reverse,
      List.reverse_reverse, List.map_map, Function.comp_def]
    rw [hmap, Nat.ofDigits_digits]

theorem natDecimalChars_injective : Function.Injective natDecimalChars :=
  Function.LeftInverse.injective decimalCharsToNat_natDecimalChars

end DisplayLemmas

section DisplayTheorem

/-- Claim C10: `Display` for `TransferError` is total and deterministic,
each variant yields its fixed non-empty message, and `Fault(errno)`
embeds the fault code so that different codes format to different
strings. -/
theorem display_spec :
    TransferError.display .Cancelled = "transfer was cancelled" ∧
    TransferError.display .Stall = "endpoint STALL condition" ∧
    TransferError.display .Disconnected = "device disconnected" ∧
    TransferError.display .Unknown = "unknown error" ∧
    (∀ e : TransferError, 0 < (TransferError.display e).length) ∧
    (∀ c1 c2 : Nat, c1 ≠ c2 →
      TransferError.display (.Fault c1) ≠ TransferError.display (.Fault c2)) := by
  refine ⟨rfl, rfl, rfl, rfl, fun e => ?_, fun c1 c2 hne heq => ?_⟩
  · cases e with
    | Fault errno =>
      simp only [TransferError.display, String.length_append]
      have h1 : 0 < (")").length := by decide
      omega
    | Cancelled => decide
    | Stall => decide
    | Disconnected => decide
    | Unknown => decide
  · apply hne
    apply natDecimalChars_injective
    have hdata := congrArg String.data heq
    simp only [TransferError.display, String.data_append] at hdata
    have h1 := List.append_cancel_right hdata
    exact List.append_cancel_left h1

/-- Witness for C10: two distinct fault codes format differently. -/
theorem display_spec_witness :
    TransferError.display (.Fault 1) ≠ TransferError.display (.Fault 2) :=
  display_spec.2.2.2.2.2 1 2 (by decide)

end DisplayTheorem

end Nusb
